import Mathlib

/-!
Verification of the AI-Gencontent repository's presentation/proxy layer
against its natural-language specification.

The definitions below are a shallow embedding of the TypeScript source:

* pagination of the CSV preview table
  (`src/shopify/app/routes/test-python-public.tsx` `CSVPreviewTable`,
  `src/admin-dashboard/app/price-logs/page.tsx` `PriceLogsPage`,
  `src/unnamed/part_001` `UploadCSVPublic`);
* the server-sent-event log stream consumers (`LogPanel` and
  `UploadCSVPublic`), including a JSON grammar parser standing for the
  JavaScript `JSON.parse`;
* the backend gateway services (`csv-upload.server.ts`, `shopify-push.server.ts`);
* the n8n webhook proxy route (`src/admin-dashboard/app/upload/page.tsx`,
  `POST` handler of the trigger-n8n proxy);
* the workflow route `action` (`src/unnamed/part_001`,
  `src/shopify/app/routes/app.test-python.tsx`).

JavaScript-specific behaviours (truthiness of `||`, `String.slice`,
`Array.slice`, thrown exceptions caught by `try`/`catch`) are modelled
explicitly; fallible computations return `Option`/`Except`.
-/

namespace GenContent

/-! ## Pagination (CSVPreviewTable / PriceLogsPage / UploadCSVPublic)

Source, `CSVPreviewTable`:
  `const totalPages = Math.ceil(products.length / itemsPerPage);`
  `const startIndex = (currentPage - 1) * itemsPerPage;`
  `const currentProducts = products.slice(startIndex, startIndex + itemsPerPage);`
display: `Page {currentPage} of {totalPages || 1}`.
-/

/-- Page size used by every paginated view in the repository
(`itemsPerPage = 10` in the preview tables, `limit = 20` in `PriceLogsPage`);
kept as a parameter `P` in the theorems, with the constant available. -/
def itemsPerPage : Nat := 10

/-- `Math.ceil(n / p)` for natural `n` and positive page size `p`. -/
def totalPages (n p : Nat) : Nat := (n + p - 1) / p

/-- The page count the table displays: the JavaScript `totalPages || 1`
(`0` is falsy, so an empty row set displays page count `1`). -/
def displayedPages (n p : Nat) : Nat :=
  if totalPages n p = 0 then 1 else totalPages n p

/-- `const startIndex = (currentPage - 1) * itemsPerPage;` -/
def startIndex (page p : Nat) : Nat := (page - 1) * p

/-- `products.slice(startIndex, startIndex + itemsPerPage)` for a page
`page ≥ 1`: JavaScript `Array.slice(a, b)` is drop `a` then take `b - a`. -/
def pageWindow {α : Type} (rows : List α) (page p : Nat) : List α :=
  (rows.drop (startIndex page p)).take p

/-- The row indices (0-based positions into the full row list) rendered on a
page; in the source each rendered row carries key `startIndex + idx`. -/
def pageIndices (n p page : Nat) : List Nat :=
  pageWindow (List.range n) page p

/-- `const handlePrev = () => setCurrentPage(prev => Math.max(1, prev - 1));` -/
def handlePrev (page : Nat) : Nat := max 1 (page - 1)

/-- `const handleNext = () => setCurrentPage(prev => Math.min(totalPages, prev + 1));` -/
def handleNext (tp page : Nat) : Nat := min tp (page + 1)

/-- `disabled={currentPage === 1}` on the Previous button. -/
def prevDisabled (page : Nat) : Bool := page == 1

/-- `disabled={currentPage === totalPages || totalPages === 0}` on the Next button. -/
def nextDisabled (tp page : Nat) : Bool := page == tp || tp == 0

end GenContent

namespace GenContent

/-- An empty row set has ceiling page count zero. -/
theorem totalPages_zero {p : Nat} (hp : 0 < p) : totalPages 0 p = 0 := by
  simp only [totalPages, Nat.zero_add]
  exact Nat.div_eq_of_lt (by omega)

/-- A page within `[1, totalPages]` starts strictly inside the row list. -/
theorem startIndex_lt_of_le_totalPages {n p page : Nat} (hp : 0 < p)
    (h1 : 1 ≤ page) (h2 : page ≤ totalPages n p) :
    startIndex page p < n := by
  have hmul : page * p ≤ n + p - 1 := by
    simp only [totalPages] at h2
    exact (Nat.le_div_iff_mul_le hp).mp h2
  have hn : 1 ≤ n := by
    by_contra hn
    have hn0 : n = 0 := by omega
    subst hn0
    have h0 := totalPages_zero hp
    omega
  have hs : startIndex page p = page * p - p := by
    simp only [startIndex, Nat.sub_one_mul]
  omega

/-- Length of the rendered window, as a natural number. -/
theorem pageWindow_length {α : Type} (rows : List α) (page p : Nat) :
    (pageWindow rows page p).length = min p (rows.length - startIndex page p) := by
  simp [pageWindow]

/-- Membership in a page's index window pins the index between the page's
start and start + p. -/
theorem mem_pageIndices {n p page i : Nat} (h : i ∈ pageIndices n p page) :
    startIndex page p ≤ i ∧ i < startIndex page p + p ∧ i < n := by
  have h1 : i ∈ (List.range n).drop (startIndex page p) := List.mem_of_mem_take h
  rcases (List.mem_take_iff_getElem).mp h with ⟨k, hk, hget⟩
  have hklt : k < p := lt_of_lt_of_le hk (by simp)
  have hkd : k < ((List.range n).drop (startIndex page p)).length := by
    have := hk
    simp only [pageWindow, pageIndices] at this ⊢
    omega
  have hi : i = startIndex page p + k := by
    rw [← hget, List.getElem_drop]
    simp
  have hin : i < n := List.mem_range.mp (List.mem_of_mem_drop h1)
  exact ⟨by omega, by omega, hin⟩

/-- C1 helper: with at least one row the ceiling page count is positive. -/
theorem totalPages_pos {n p : Nat} (hp : 0 < p) (hn : 0 < n) :
    0 < totalPages n p := by
  have h : 1 * p ≤ n + p - 1 := by omega
  have := (Nat.le_div_iff_mul_le hp).mpr h
  simpa [totalPages] using this

/-- **C1.** For every row list of length `N` and page size `P > 0`, the page
count displayed by the paginated preview table (`totalPages || 1`) equals
`max 1 (ceil (N / P))`; in particular the displayed page count is `1` even
when `N = 0`. -/
theorem displayedPages_eq_max_one_ceil (n p : Nat) (hp : 0 < p) :
    displayedPages n p = max 1 (totalPages n p) ∧ displayedPages 0 p = 1 := by
  constructor
  · by_cases hn : n = 0
    · subst hn
      simp [displayedPages, totalPages_zero hp]
    · have hpos := totalPages_pos hp (Nat.pos_of_ne_zero hn)
      have hne : totalPages n p ≠ 0 := by omega
      rw [displayedPages, if_neg hne, Nat.max_eq_right hpos]
  · simp [displayedPages, totalPages_zero hp]

/-- Witness for C1 at `N = 0`, `P = 10` (an empty price-log listing displays
"Page 1 of 1"). -/
theorem displayedPages_eq_max_one_ceil_witness :
    0 < 10 ∧ (displayedPages 0 10 = max 1 (totalPages 0 10) ∧ displayedPages 0 10 = 1) :=
  ⟨by decide, displayedPages_eq_max_one_ceil 0 10 (by decide)⟩

/-- Consecutive page windows abut: the start of page `page + 1` is exactly
one page size past the start of `page`. -/
theorem startIndex_succ {p page : Nat} (h1 : 1 ≤ page) :
    startIndex page p + p = startIndex (page + 1) p := by
  have hip : p ≤ page * p := Nat.le_mul_of_pos_left p (by omega)
  simp only [startIndex, Nat.add_sub_cancel, Nat.sub_one_mul]
  exact Nat.sub_add_cancel hip

/-- **C2.** For every row list of length `N`, page size `P > 0`, and page in
`[1, pageCount]`, the slice `rows.slice(startIndex, startIndex + P)` rendered
for that page has length `min P (N - (page-1)·P)` (over the integers, as the
claim states it), and the row-index windows of adjacent pages are disjoint. -/
theorem pageWindow_spec {α : Type} (rows : List α) (p page : Nat)
    (hp : 0 < p) (h1 : 1 ≤ page) (h2 : page ≤ totalPages rows.length p) :
    ((pageWindow rows page p).length : Int) =
      min (p : Int) ((rows.length : Int) - ((page : Int) - 1) * (p : Int)) ∧
    ∀ i, i ∈ pageIndices rows.length p page →
      i ∉ pageIndices rows.length p (page + 1) := by
  constructor
  · have hsn : startIndex page p ≤ rows.length :=
      le_of_lt (startIndex_lt_of_le_totalPages hp h1 h2)
    have hcast : ((startIndex page p : Nat) : Int) = ((page : Int) - 1) * (p : Int) := by
      simp only [startIndex]
      rw [Nat.cast_mul, Nat.cast_sub h1]
      norm_num
    rw [pageWindow_length, Nat.cast_min, Nat.cast_sub hsn, hcast]
  · intro i h3 h4
    have b3 := mem_pageIndices h3
    have b4 := mem_pageIndices h4
    have h5 : i < startIndex (page + 1) p := startIndex_succ h1 ▸ b3.2.1
    exact absurd (lt_of_lt_of_le h5 b4.1) (lt_irrefl i)

/-- Witness for C2: 25 rows, page size 10, page 2 renders rows 10–19 (length
`10 = min 10 (25 - 10)`) and shares no row index with page 3. -/
theorem pageWindow_spec_witness :
    (0 < 10 ∧ 1 ≤ 2 ∧ 2 ≤ totalPages (List.range 25).length 10) ∧
    (((pageWindow (List.range 25) 2 10).length : Int) =
        min (10 : Int) (((List.range 25).length : Int) - ((2 : Int) - 1) * (10 : Int)) ∧
      ∀ i, i ∈ pageIndices (List.range 25).length 10 2 →
        i ∉ pageIndices (List.range 25).length 10 3) :=
  ⟨⟨by decide, by decide, by decide⟩,
    pageWindow_spec (List.range 25) 10 2 (by decide) (by decide) (by decide)⟩

/-- **C3.** From a valid page, pressing Previous (possible exactly when the
Previous control is not disabled) and then Next returns to the original page,
and symmetrically Next then Previous; the row window rendered for the page is
therefore unchanged.  The source disables Previous on page 1 and Next on the
last page (`disabled={currentPage === 1}`,
`disabled={currentPage === totalPages || totalPages === 0}`), so an action can
be applied only where its control is enabled. -/
theorem prev_next_roundtrip {α : Type} (rows : List α) (p tp page : Nat)
    (h1 : 1 ≤ page) (h2 : page ≤ tp) :
    (prevDisabled page = false →
      handleNext tp (handlePrev page) = page ∧
      pageWindow rows (handleNext tp (handlePrev page)) p = pageWindow rows page p) ∧
    (nextDisabled tp page = false →
      handlePrev (handleNext tp page) = page ∧
      pageWindow rows (handlePrev (handleNext tp page)) p = pageWindow rows page p) := by
  constructor
  · intro hd
    have hgt : 1 < page := by
      simp only [prevDisabled, beq_eq_false_iff_ne, ne_eq] at hd
      omega
    have hpage : handleNext tp (handlePrev page) = page := by
      simp only [handlePrev, handleNext]
      omega
    exact ⟨hpage, by rw [hpage]⟩
  · intro hd
    have hlt : page < tp := by
      simp only [nextDisabled, Bool.or_eq_false_iff, beq_eq_false_iff_ne, ne_eq] at hd
      omega
    have hpage : handlePrev (handleNext tp page) = page := by
      simp only [handlePrev, handleNext]
      omega
    exact ⟨hpage, by rw [hpage]⟩

/-- Witness for C3 at page 2 of 3 (25 rows, page size 10): both round trips
land back on page 2 with the same window. -/
theorem prev_next_roundtrip_witness :
    (1 ≤ 2 ∧ 2 ≤ 3 ∧ prevDisabled 2 = false ∧ nextDisabled 3 2 = false) ∧
    (handleNext 3 (handlePrev 2) = 2 ∧
      pageWindow (List.range 25) (handleNext 3 (handlePrev 2)) 10 =
        pageWindow (List.range 25) 2 10) ∧
    (handlePrev (handleNext 3 2) = 2 ∧
      pageWindow (List.range 25) (handlePrev (handleNext 3 2)) 10 =
        pageWindow (List.range 25) 2 10) :=
  ⟨⟨by decide, by decide, by decide, by decide⟩,
    (prev_next_roundtrip (List.range 25) 10 3 2 (by decide) (by decide)).1 (by decide),
    (prev_next_roundtrip (List.range 25) 10 3 2 (by decide) (by decide)).2 (by decide)⟩

/-! ## JavaScript string primitives

Models of the JavaScript string operations the source uses
(`String.prototype.startsWith/endsWith/slice/trim/includes`), written over
`List Char` so that they evaluate inside the kernel. -/

/-- The first list is a prefix of the second (character-wise). -/
def leadsWith : List Char → List Char → Bool
  | [], _ => true
  | _ :: _, [] => false
  | a :: as, b :: bs => a == b && leadsWith as bs

/-- The first list occurs as a contiguous run inside the second
(JavaScript `text.includes(pattern)` with `pattern` first). -/
def occursIn : List Char → List Char → Bool
  | pat, [] => leadsWith pat []
  | pat, t :: ts => leadsWith pat (t :: ts) || occursIn pat ts

/-- `s.includes(pat)`. -/
def includesSub (s pat : String) : Bool := occursIn pat.toList s.toList

/-- `s.startsWith(pat)`. -/
def jsStartsWith (s pat : String) : Bool := leadsWith pat.toList s.toList

/-- `s.endsWith(pat)`. -/
def jsEndsWith (s pat : String) : Bool := leadsWith pat.toList.reverse s.toList.reverse

/-- Whitespace for `String.prototype.trim` (the ASCII cases arising in
server-sent-event payloads). -/
def isWsChar (c : Char) : Bool := c == ' ' || c == '\t' || c == '\n' || c == '\r'

/-- `s.trim()`. -/
def jsTrim (s : String) : String :=
  String.mk (((s.toList.dropWhile isWsChar).reverse.dropWhile isWsChar).reverse)

/-! ## JSON values and `JSON.parse`

A shallow model of the JavaScript `JSON.parse` used by every consumer of the
log stream and by the gateway error paths.  It follows the JSON grammar
(RFC 8259): double-quoted strings with the standard escapes (unescaped
control characters below U+0020 rejected; astral-plane surrogate-pair
escapes out of scope), objects (later duplicate key wins), arrays, `true`,
`false`, `null`, the full numeral grammar `-?int frac? exp?` with leading
zeros rejected, and rejects trailing content.  An integral numeral becomes
`jnum`; a numeral with a fraction or exponent part is kept as its verbatim
token in `jnumFrac` — its double value lives engine-side, and the only
value-dependent fact the model needs is whether it is zero (for
truthiness), which is read off the token's mantissa digits.  Notably — as
in JavaScript — single-quoted strings are *not* JSON:
`JSON.parse("{'a': 1}")` throws. -/

inductive JsValue : Type where
  | jnull : JsValue
  | jbool : Bool → JsValue
  | jnum : Int → JsValue
  | jnumFrac : String → JsValue
  | jstr : String → JsValue
  | jarr : List JsValue → JsValue
  | jobj : List (String × JsValue) → JsValue

/-- Drop JSON insignificant whitespace. -/
def skipWs : List Char → List Char
  | [] => []
  | c :: cs => if isWsChar c then skipWs cs else c :: cs

/-- Value of a hexadecimal digit, for `\uXXXX` escapes. -/
def hexVal (c : Char) : Option Nat :=
  if c.isDigit then some (c.toNat - 48)
  else if 'a' ≤ c && c ≤ 'f' then some (c.toNat - 87)
  else if 'A' ≤ c && c ≤ 'F' then some (c.toNat - 55)
  else none

/-- Body of a JSON string literal after the opening quote: returns the
decoded characters and the input past the closing quote. -/
def parseStringChars : Nat → List Char → Option (List Char × List Char)
  | 0, _ => none
  | _, [] => none
  | fuel + 1, c :: cs =>
    if c = '"' then some ([], cs)
    else if c = '\\' then
      match cs with
      | [] => none
      | e :: cs2 =>
        let esc : Option (Char × List Char) :=
          if e = '"' then some ('"', cs2)
          else if e = '\\' then some ('\\', cs2)
          else if e = '/' then some ('/', cs2)
          else if e = 'n' then some ('\n', cs2)
          else if e = 't' then some ('\t', cs2)
          else if e = 'r' then some ('\r', cs2)
          else if e = 'b' then some (Char.ofNat 8, cs2)
          else if e = 'f' then some (Char.ofNat 12, cs2)
          else if e = 'u' then
            match cs2 with
            | a :: b :: c2 :: d :: cs3 =>
              match hexVal a, hexVal b, hexVal c2, hexVal d with
              | some x, some y, some z, some w =>
                some (Char.ofNat (((x * 16 + y) * 16 + z) * 16 + w), cs3)
              | _, _, _, _ => none
            | _ => none
          else none
        match esc with
        | none => none
        | some (ch, rest) =>
          match parseStringChars fuel rest with
          | none => none
          | some (out, rest2) => some (ch :: out, rest2)
    else if c.toNat < 32 then none
    else
      match parseStringChars fuel cs with
      | none => none
      | some (out, rest) => some (c :: out, rest)

/-- Leading decimal digits of the input, and the rest. -/
def takeDigits : List Char → List Char × List Char
  | [] => ([], [])
  | c :: cs =>
    if c.isDigit then
      let (d, r) := takeDigits cs
      (c :: d, r)
    else ([], c :: cs)

/-- Digit characters to a natural number. -/
def digitsToNat : List Char → Nat → Nat
  | [], acc => acc
  | c :: cs, acc => digitsToNat cs (acc * 10 + (c.toNat - 48))

/-- The maximal run of numeral characters from the front of the input, and
the rest.  Any character that can occur inside a JSON numeral token can
never legally follow a complete numeral directly, so taking the maximal run
and then validating it against the numeral grammar fails exactly where
`JSON.parse`'s lexer does. -/
def numToken : List Char → List Char × List Char
  | [] => ([], [])
  | c :: cs =>
    if c.isDigit || c = '-' || c = '+' || c = '.' || c = 'e' || c = 'E' then
      let (t, r) := numToken cs
      (c :: t, r)
    else ([], c :: cs)

/-- JSON rejects integer parts with a leading zero (`01`), but not `0`
itself. -/
def leadingZero : List Char → Bool
  | '0' :: _ :: _ => true
  | _ => false

/-- Sign and integer-part digits of a numeral token (`-? int`), enforcing
the no-leading-zero rule; returns the rest of the token. -/
def splitInt (cs : List Char) : Option (Bool × List Char × List Char) :=
  let (neg, cs1) :=
    match cs with
    | '-' :: t => (true, t)
    | t => (false, t)
  match takeDigits cs1 with
  | ([], _) => none
  | (ds, r) => if leadingZero ds then none else some (neg, ds, r)

/-- Optional fraction part (`. 1*digit`) of a numeral token. -/
def splitFrac : List Char → Option (Option (List Char) × List Char)
  | '.' :: t =>
    (match takeDigits t with
     | ([], _) => none
     | (fs, r) => some (some fs, r))
  | t => some (none, t)

/-- Optional exponent part (`(e|E) (+|-)? 1*digit`) of a numeral token. -/
def splitExp : List Char → Option (Option (List Char) × List Char)
  | [] => some (none, [])
  | c :: t =>
    if c = 'e' || c = 'E' then
      match t with
      | '+' :: u =>
        (match takeDigits u with
         | ([], _) => none
         | (es, r) => some (some es, r))
      | '-' :: u =>
        (match takeDigits u with
         | ([], _) => none
         | (es, r) => some (some es, r))
      | u =>
        (match takeDigits u with
         | ([], _) => none
         | (es, r) => some (some es, r))
    else some (none, c :: t)

/-- A numeral's double value is zero exactly when every mantissa digit
(integer and fraction part, before any exponent marker) is `0`. -/
def mantissaAllZero : List Char → Bool
  | [] => true
  | c :: cs =>
    if c = 'e' || c = 'E' then true
    else if c.isDigit then c = '0' && mantissaAllZero cs
    else mantissaAllZero cs

/-- Parse one JSON numeral from the front of the input: an integral token
becomes `jnum`, a token with fraction or exponent part becomes `jnumFrac`
carrying the token verbatim; malformed tokens (leading zeros, bare dots,
dangling exponents) fail as in `JSON.parse`. -/
def parseNumeral (cs : List Char) : Option (JsValue × List Char) :=
  match numToken cs with
  | ([], _) => none
  | (tok, rest) =>
    match splitInt tok with
    | none => none
    | some (neg, ds, r1) =>
      match splitFrac r1 with
      | none => none
      | some (fs, r2) =>
        match splitExp r2 with
        | none => none
        | some (es, r3) =>
          match r3 with
          | _ :: _ => none
          | [] =>
            match fs, es with
            | none, none =>
              let n : Int := (digitsToNat ds 0 : Int)
              some (JsValue.jnum (if neg then -n else n), rest)
            | _, _ => some (JsValue.jnumFrac (String.mk tok), rest)

/-- What the recursive-descent parser is positioned at: a value, the members
of an object (first key's opening quote next), or the elements of an array.
In `members` mode the parsed fields are returned wrapped in `jobj`, in
`elems` mode the parsed elements wrapped in `jarr`. -/
inductive ParseMode : Type where
  | value : ParseMode
  | members : ParseMode
  | elems : ParseMode

/-- JSON recursive-descent parser (`fuel` bounds recursion depth; structural
recursion on `fuel` so that the kernel can evaluate it). -/
def parseCore : Nat → ParseMode → List Char → Option (JsValue × List Char)
  | 0, _, _ => none
  | fuel + 1, ParseMode.value, cs =>
    match skipWs cs with
    | [] => none
    | c :: rest =>
      if c = '"' then
        match parseStringChars (fuel + 1) rest with
        | some (out, rest2) => some (JsValue.jstr (String.mk out), rest2)
        | none => none
      else if c = '{' then
        match skipWs rest with
        | '}' :: rest2 => some (JsValue.jobj [], rest2)
        | rest2 => parseCore fuel ParseMode.members rest2
      else if c = '[' then
        match skipWs rest with
        | ']' :: rest2 => some (JsValue.jarr [], rest2)
        | rest2 => parseCore fuel ParseMode.elems rest2
      else if c = 't' then
        match rest with
        | 'r' :: 'u' :: 'e' :: rest2 => some (JsValue.jbool true, rest2)
        | _ => none
      else if c = 'f' then
        match rest with
        | 'a' :: 'l' :: 's' :: 'e' :: rest2 => some (JsValue.jbool false, rest2)
        | _ => none
      else if c = 'n' then
        match rest with
        | 'u' :: 'l' :: 'l' :: rest2 => some (JsValue.jnull, rest2)
        | _ => none
      else if c = '-' || c.isDigit then parseNumeral (c :: rest)
      else none
  | fuel + 1, ParseMode.members, cs =>
    match cs with
    | '"' :: rest =>
      match parseStringChars (fuel + 1) rest with
      | some (key, rest2) =>
        match skipWs rest2 with
        | ':' :: rest3 =>
          match parseCore fuel ParseMode.value rest3 with
          | some (v, rest4) =>
            match skipWs rest4 with
            | ',' :: rest5 =>
              match parseCore fuel ParseMode.members (skipWs rest5) with
              | some (JsValue.jobj ms, rest6) =>
                some (JsValue.jobj ((String.mk key, v) :: ms), rest6)
              | _ => none
            | '}' :: rest5 => some (JsValue.jobj [(String.mk key, v)], rest5)
            | _ => none
          | none => none
        | _ => none
      | none => none
    | _ => none
  | fuel + 1, ParseMode.elems, cs =>
    match parseCore fuel ParseMode.value cs with
    | some (v, rest) =>
      match skipWs rest with
      | ',' :: rest2 =>
        match parseCore fuel ParseMode.elems rest2 with
        | some (JsValue.jarr vs, rest3) => some (JsValue.jarr (v :: vs), rest3)
        | _ => none
      | ']' :: rest2 => some (JsValue.jarr [v], rest2)
      | _ => none
    | none => none

/-- `JSON.parse`: parse one value, reject trailing non-whitespace, fail
(`none`, a thrown `SyntaxError` in JavaScript) otherwise. -/
def jsonParse (s : String) : Option JsValue :=
  let cs := s.toList
  match parseCore (cs.length + 1) ParseMode.value cs with
  | some (v, rest) =>
    match skipWs rest with
    | [] => some v
    | _ => none
  | none => none

/-- Field lookup on a parsed object; a later duplicate key shadows an
earlier one, as in `JSON.parse`. -/
def lookupField : List (String × JsValue) → String → Option JsValue
  | [], _ => none
  | (k, v) :: rest, key =>
    match lookupField rest key with
    | some v2 => some v2
    | none => if k = key then some v else none

/-- `v.key` member access as the *log consumers* observe it, inside their
`try`/`catch`: the field on an object, `none` otherwise.  For those call
sites JavaScript `undefined` (access on a non-null primitive or array) and
the `TypeError` thrown by access on `null` coincide — either way the
handler catches and appends nothing.  Where the distinction is observable
(the services' uncaught `errorData.detail` access), the model uses
`jsMemberAccess` below instead. -/
def getField (v : JsValue) (key : String) : Option JsValue :=
  match v with
  | .jobj fields => lookupField fields key
  | _ => none

/-- A JavaScript exception, as the services reject with it: an `Error`
built by a handler, the `TypeError` raised by property access on `null`,
or the `SyntaxError` raised by `JSON.parse`. -/
inductive JsException : Type where
  | error : String → JsException
  | typeError : String → JsException
  | syntaxError : String → JsException

/-- V8's message for a property access on `null`.  Its exact text is
engine-defined (a stand-in here); what matters structurally is that the
`TypeError` is raised *before* any `Error` carrying the HTTP status text
could be built, and that its message is not built from the status text. -/
def nullAccessMessage (key : String) : String :=
  "Cannot read properties of null (reading '" ++ key ++ "')"

/-- `base.key` member access with JavaScript's exception behaviour: throws
`TypeError` on a `null` base, yields the field on an object, and
`undefined` (`none`) on any other base (`JSON.parse` never produces
`undefined` itself). -/
def jsMemberAccess (v : JsValue) (key : String) : Except JsException (Option JsValue) :=
  match v with
  | .jnull => Except.error (JsException.typeError (nullAccessMessage key))
  | .jobj fields => Except.ok (lookupField fields key)
  | _ => Except.ok none

/-- JavaScript truthiness of a parsed JSON value (a numeral is falsy
exactly when its value is zero). -/
def jsTruthy : JsValue → Bool
  | .jnull => false
  | .jbool b => b
  | .jnum n => n != 0
  | .jnumFrac raw => !(mantissaAllZero raw.toList)
  | .jstr s => s != ""
  | .jarr _ => true
  | .jobj _ => true

mutual

/-- JavaScript `String(v)` coercion (used when a non-string lands in an
`Error` message).  A fractional numeral renders as its token — the engine
prints the shortest round-trip decimal, which equals the token for the
payloads arising here. -/
def jsToString : JsValue → String
  | .jnull => "null"
  | .jbool true => "true"
  | .jbool false => "false"
  | .jnum n => toString n
  | .jnumFrac raw => raw
  | .jstr s => s
  | .jarr xs => jsArrToString xs
  | .jobj _ => "[object Object]"

/-- `Array.prototype.toString`: elements joined by commas, `null` elements
rendered empty. -/
def jsArrToString : List JsValue → String
  | [] => ""
  | [JsValue.jnull] => ""
  | [x] => jsToString x
  | JsValue.jnull :: xs => "," ++ jsArrToString xs
  | x :: xs => jsToString x ++ "," ++ jsArrToString xs

end

/-- Escape one character for a JSON string literal, as `JSON.stringify`
does for the characters arising here. -/
def escapeChar (c : Char) : String :=
  if c = '"' then "\\\""
  else if c = '\\' then "\\\\"
  else if c = '\n' then "\\n"
  else if c = '\t' then "\\t"
  else if c = '\r' then "\\r"
  else if c = Char.ofNat 8 then "\\b"
  else if c = Char.ofNat 12 then "\\f"
  else String.singleton c

/-- `JSON.stringify` of a string. -/
def serializeString (s : String) : String :=
  "\"" ++ String.join (s.toList.map escapeChar) ++ "\""

mutual

/-- `JSON.stringify` (no indentation, as called in the proxy; a fractional
numeral re-emits its token, the engine's shortest-decimal rendering for the
payloads arising here). -/
def jsonSerialize : JsValue → String
  | .jnull => "null"
  | .jbool true => "true"
  | .jbool false => "false"
  | .jnum n => toString n
  | .jnumFrac raw => raw
  | .jstr s => serializeString s
  | .jarr xs => "[" ++ serializeElems xs ++ "]"
  | .jobj fs => "\x7b" ++ serializeFields fs ++ "\x7d"

/-- Array elements of a `JSON.stringify` rendering. -/
def serializeElems : List JsValue → String
  | [] => ""
  | [x] => jsonSerialize x
  | x :: xs => jsonSerialize x ++ "," ++ serializeElems xs

/-- Object fields of a `JSON.stringify` rendering. -/
def serializeFields : List (String × JsValue) → String
  | [] => ""
  | [(k, v)] => serializeString k ++ ":" ++ jsonSerialize v
  | (k, v) :: fs => serializeString k ++ ":" ++ jsonSerialize v ++ "," ++ serializeFields fs

end

/-! ## Log stream consumers (`LogPanel`, `UploadCSVPublic`)

`LogPanel.onmessage` (src/shopify/app/routes/test-python-public.tsx, also
mounted from the admin dashboard):

    if (!event.data || event.data.trim() === '') return;
    let rawData = event.data;
    if (rawData.startsWith("'") && rawData.endsWith("'")) {
      rawData = rawData.slice(1, -1);
    }
    const logData = JSON.parse(rawData);
    const shouldShow = logData.message.includes('Success') || ... ;
    if (shouldShow) { setLogs(prev => [...prev, logData]); }

everything wrapped in `try { ... } catch` — a parse failure, or `.includes`
on a missing/non-string `message`, appends nothing.

`UploadCSVPublic.onmessage` (src/unnamed/part_001) parses `event.data`
unconditionally (no quote stripping, no relevance filter) and appends a line
rendered from the parsed object (`[time] message`); the model stores the
parsed object, from which that line is derived. -/

/-- One layer of single-quote (apostrophe) wrapping stripped:
`rawData.startsWith("'") && rawData.endsWith("'")` then `slice(1, -1)`. -/
def stripQuoteWrap (s : String) : String :=
  if jsStartsWith s "'" && jsEndsWith s "'" then (s.drop 1).dropRight 1 else s

/-- The five relevance keywords of `LogPanel`'s filter. -/
def relevantKeywords : List String := ["Success", "Failed", "Error", "✅", "❌"]

/-- `LogPanel`'s relevance filter over the parsed `message` text. -/
def shouldShow (msg : String) : Bool :=
  includesSub msg "Success" || includesSub msg "Failed" || includesSub msg "Error" ||
  includesSub msg "✅" || includesSub msg "❌"

/-- `logData.message` when it is a string; `none` models the JavaScript
`TypeError` thrown by `.includes` on `undefined` (caught by the handler). -/
def getMessageStr (v : JsValue) : Option String :=
  match getField v "message" with
  | some (.jstr s) => some s
  | _ => none

/-- What `LogPanel.onmessage` appends for one raw payload: `none` when the
guard returns early, parsing throws, `message` is unusable, or the
relevance filter rejects. -/
def panelEntry (raw : String) : Option JsValue :=
  if jsTrim raw = "" then none
  else
    match jsonParse (stripQuoteWrap raw) with
    | none => none
    | some v =>
      match getMessageStr v with
      | none => none
      | some m => if shouldShow m then some v else none

/-- `setLogs(prev => [...prev, logData])` under `LogPanel`'s guard. -/
def panelStep (logs : List JsValue) (raw : String) : List JsValue :=
  match panelEntry raw with
  | some v => logs ++ [v]
  | none => logs

/-- The buffer after `LogPanel` consumes a sequence of raw payloads in
arrival order. -/
def panelRun (msgs : List String) : List JsValue := msgs.foldl panelStep []

/-- What `UploadCSVPublic.onmessage` appends: the parsed payload, with no
quote stripping and no relevance filter. -/
def publicEntry (raw : String) : Option JsValue := jsonParse raw

/-- `setLogs((prev) => [...prev, logMessage])` under `UploadCSVPublic`'s
`try`/`catch`. -/
def publicStep (logs : List JsValue) (raw : String) : List JsValue :=
  match publicEntry raw with
  | some v => logs ++ [v]
  | none => logs

/-- The buffer after `UploadCSVPublic` consumes a sequence of raw payloads
in arrival order. -/
def publicRun (msgs : List String) : List JsValue := msgs.foldl publicStep []

/-! ### C4: the quote-stripping scenario -/

/-- The claim's raw payload `{'message': 'Success: synced'}` wrapped in a
matching pair of single-quote characters. -/
def quoteWrappedPseudoJson : String := "'\x7b'message': 'Success: synced'\x7d'"

/-- The same pseudo-JSON payload wrapped in a matching pair of double-quote
characters instead. -/
def doubleQuoteWrappedPseudoJson : String := "\"\x7b'message': 'Success: synced'\x7d\""

/-- The payload the code's quote-stripping actually serves: valid JSON
`{"message": "Success: synced"}` wrapped in one pair of single quotes. -/
def quoteWrappedJson : String := "'\x7b\"message\": \"Success: synced\"\x7d'"

/-- The log entry parsed from `quoteWrappedJson`. -/
def syncedEntry : JsValue := JsValue.jobj [("message", JsValue.jstr "Success: synced")]

/-- **C4 counterexample.** The claim's payload `{'message': 'Success:
synced'}` is not itself JSON (JSON strings are double-quoted), so after the
single layer of quote stripping `JSON.parse` throws and *nothing* is
appended to the log buffer; under double-quote wrapping the code does not
strip at all (it tests only for apostrophes), the text parses as one bare
JSON string whose `.message` is `undefined`, and again nothing is appended
— contradicting the claimed appended `LogEntry` with message
`"Success: synced"`. -/
theorem quote_stripping_claim_false :
    panelEntry quoteWrappedPseudoJson = none ∧
    panelStep [] quoteWrappedPseudoJson = [] ∧
    panelEntry doubleQuoteWrappedPseudoJson = none ∧
    panelStep [] doubleQuoteWrappedPseudoJson = [] := by
  refine ⟨by rfl, by rfl, by rfl, by rfl⟩

/-- **C4 amended.** When the raw payload is valid JSON
`{"message": "Success: synced"}` wrapped in a single matching pair of
single-quote characters, the consumer strips one layer of quotes before
parsing, a log entry with message `"Success: synced"` is appended to the
buffer, and it passes the default relevance filter. -/
theorem quote_stripping_amended :
    stripQuoteWrap quoteWrappedJson = "\x7b\"message\": \"Success: synced\"\x7d" ∧
    panelEntry quoteWrappedJson = some syncedEntry ∧
    panelStep [] quoteWrappedJson = [syncedEntry] ∧
    getMessageStr syncedEntry = some "Success: synced" ∧
    shouldShow "Success: synced" = true := by
  refine ⟨by rfl, by rfl, by rfl, by rfl, by rfl⟩

/-! ### C5: relevance filtering and arrival order -/

/-- Streams fold left over arrival order with append-at-end steps, so the
filtered buffer is a `filterMap` of the arrivals: helper over any
accumulator. -/
theorem panelStep_foldl (msgs : List String) (acc : List JsValue) :
    msgs.foldl panelStep acc = acc ++ msgs.filterMap panelEntry := by
  induction msgs generalizing acc with
  | nil => simp
  | cons m ms ih =>
    simp only [List.foldl_cons, List.filterMap_cons, panelStep]
    cases hpe : panelEntry m with
    | none => simp [ih]
    | some v => simp [ih]

/-- The unfiltered variant's buffer is likewise a `filterMap` of arrivals. -/
theorem publicStep_foldl (msgs : List String) (acc : List JsValue) :
    msgs.foldl publicStep acc = acc ++ msgs.filterMap publicEntry := by
  induction msgs generalizing acc with
  | nil => simp
  | cons m ms ih =>
    simp only [List.foldl_cons, List.filterMap_cons, publicStep]
    cases hpe : publicEntry m with
    | none => simp [ih]
    | some v => simp [ih]

/-- **C5.** A raw payload that parses to an object whose `message` contains
none of the keywords `"Success"`, `"Failed"`, `"Error"`, `"✅"`, `"❌"` is
excluded by the filtering consumer (`LogPanel`) and included by the
unfiltered consumer (`UploadCSVPublic`); and in both variants the displayed
buffer is the arrival sequence filtered in place (`filterMap` of arrivals),
so display order equals arrival order. -/
theorem relevance_filter_spec (msgs : List String) (raw : String) (v : JsValue)
    (m : String) (hwrap : stripQuoteWrap raw = raw)
    (hp : jsonParse raw = some v) (hm : getMessageStr v = some m)
    (hk : shouldShow m = false) :
    panelEntry raw = none ∧ publicEntry raw = some v ∧
    panelRun msgs = msgs.filterMap panelEntry ∧
    publicRun msgs = msgs.filterMap publicEntry := by
  refine ⟨?_, hp, (panelStep_foldl msgs []).trans (List.nil_append _),
    (publicStep_foldl msgs []).trans (List.nil_append _)⟩
  unfold panelEntry
  by_cases ht : jsTrim raw = ""
  · simp [ht]
  · simp [ht, hwrap, hp, hm, hk]

/-- Witness for C5: the payload `{"message": "hello"}` contains no keyword,
is dropped by `LogPanel`, kept by `UploadCSVPublic`, and both buffers list
arrivals in order. -/
theorem relevance_filter_spec_witness :
    (stripQuoteWrap "\x7b\"message\": \"hello\"\x7d" = "\x7b\"message\": \"hello\"\x7d" ∧
      jsonParse "\x7b\"message\": \"hello\"\x7d" =
        some (JsValue.jobj [("message", JsValue.jstr "hello")]) ∧
      getMessageStr (JsValue.jobj [("message", JsValue.jstr "hello")]) = some "hello" ∧
      shouldShow "hello" = false) ∧
    (panelEntry "\x7b\"message\": \"hello\"\x7d" = none ∧
      publicEntry "\x7b\"message\": \"hello\"\x7d" =
        some (JsValue.jobj [("message", JsValue.jstr "hello")]) ∧
      panelRun ["\x7b\"message\": \"hello\"\x7d"] =
        ["\x7b\"message\": \"hello\"\x7d"].filterMap panelEntry ∧
      publicRun ["\x7b\"message\": \"hello\"\x7d"] =
        ["\x7b\"message\": \"hello\"\x7d"].filterMap publicEntry) :=
  ⟨⟨by rfl, by rfl, by rfl, by rfl⟩,
    relevance_filter_spec ["\x7b\"message\": \"hello\"\x7d"]
      "\x7b\"message\": \"hello\"\x7d"
      (JsValue.jobj [("message", JsValue.jstr "hello")]) "hello"
      (by rfl) (by rfl) (by rfl) (by rfl)⟩

/-! ## SSE connection lifecycle (C6)

`UploadCSVPublic` (src/unnamed/part_001):

    const eventSource = new EventSource("http://127.0.0.1:8000/logs");
    eventSource.onopen = () => setIsConnected(true);
    eventSource.onmessage = (event) => { ...JSON.parse + append... };
    eventSource.onerror = () => { setIsConnected(false); eventSource.close(); };
    return () => eventSource.close();

`LogPanel` (src/shopify/app/routes/test-python-public.tsx):

    eventSource.onerror = (err) => { console.error('SSE Error:', err); };

A closed `EventSource` delivers no further events, so the step functions are
the identity once the connection is closed.  `Date.now()` timestamps on the
system entry are outside the model. -/

/-- A stream lifecycle event delivered to a consumer's handlers. -/
inductive SseEvent : Type where
  | openEv : SseEvent
  | message : String → SseEvent
  | errorEv : SseEvent

/-- State of the `UploadCSVPublic` consumer: its `isConnected` flag, whether
the underlying `EventSource` is still open, and the log buffer. -/
structure WorkflowSse where
  isConnected : Bool
  isOpen : Bool
  logs : List JsValue

/-- Right after mounting: `useState(false)` for the flag, a freshly
constructed (open) `EventSource`, empty buffer. -/
def workflowSseInit : WorkflowSse :=
  { isConnected := false, isOpen := true, logs := [] }

/-- One lifecycle event against `UploadCSVPublic`'s handlers. -/
def workflowSseStep (s : WorkflowSse) (e : SseEvent) : WorkflowSse :=
  if s.isOpen = false then s
  else
    match e with
    | .openEv => { s with isConnected := true }
    | .message d => { s with logs := publicStep s.logs d }
    | .errorEv => { s with isConnected := false, isOpen := false }

/-- A trace of lifecycle events against `UploadCSVPublic`'s handlers. -/
def workflowSseRun (s : WorkflowSse) (evs : List SseEvent) : WorkflowSse :=
  evs.foldl workflowSseStep s

/-- State of the `LogPanel` consumer (it tracks no connection flag). -/
structure PanelSse where
  isOpen : Bool
  logs : List JsValue

/-- `LogPanel` right after mounting. -/
def panelSseInit : PanelSse := { isOpen := true, logs := [] }

/-- The system entry `LogPanel.onopen` appends (its wall-clock timestamp is
outside the model). -/
def connectedSystemEntry : JsValue :=
  JsValue.jobj [("message", JsValue.jstr "Connected to log stream..."),
    ("level", JsValue.jstr "system")]

/-- One lifecycle event against `LogPanel`'s handlers: `onerror` only logs
to the console — it neither tracks a status nor closes the source. -/
def panelSseStep (s : PanelSse) (e : SseEvent) : PanelSse :=
  if s.isOpen = false then s
  else
    match e with
    | .openEv => { s with logs := s.logs ++ [connectedSystemEntry] }
    | .message d => { s with logs := panelStep s.logs d }
    | .errorEv => s

/-- Closed-consumer invariant: once the `UploadCSVPublic` source is closed
its flag is (and stays) disconnected. -/
theorem workflowSseRun_closed_inv (evs : List SseEvent) (s : WorkflowSse)
    (hs : s.isOpen = false → s.isConnected = false) :
    (workflowSseRun s evs).isOpen = false → (workflowSseRun s evs).isConnected = false := by
  induction evs generalizing s with
  | nil => exact hs
  | cons e es ih =>
    simp only [workflowSseRun, List.foldl_cons] at *
    apply ih
    unfold workflowSseStep
    by_cases ho : s.isOpen = false
    · rw [if_pos ho]
      exact hs
    · rw [if_neg ho]
      cases e with
      | openEv => intro h; exact absurd h (by simpa using ho)
      | message d => intro h; exact absurd h (by simpa using ho)
      | errorEv => intro h; rfl

/-- A closed `UploadCSVPublic` consumer is a fixed point of the trace. -/
theorem workflowSseRun_closed_fixed (evs : List SseEvent) (s : WorkflowSse)
    (hs : s.isOpen = false) : workflowSseRun s evs = s := by
  induction evs with
  | nil => rfl
  | cons e es ih =>
    simp only [workflowSseRun, List.foldl_cons] at *
    unfold workflowSseStep
    rw [if_pos hs]
    exact ih

/-- **C6 amended.** In the workflow consumer (`UploadCSVPublic`), whatever
happened before, a stream-error signal leaves the consumer disconnected with
the underlying `EventSource` closed, and — the machine having no reopen
event — it is never again in the connected state afterwards. -/
theorem workflow_error_disconnects (evs evs2 : List SseEvent) :
    (workflowSseRun workflowSseInit (evs ++ SseEvent.errorEv :: evs2)).isConnected = false ∧
    (workflowSseRun workflowSseInit (evs ++ SseEvent.errorEv :: evs2)).isOpen = false := by
  have hsplit : workflowSseRun workflowSseInit (evs ++ SseEvent.errorEv :: evs2) =
      workflowSseRun (workflowSseStep (workflowSseRun workflowSseInit evs) SseEvent.errorEv)
        evs2 := by
    simp [workflowSseRun, List.foldl_append]
  set t := workflowSseRun workflowSseInit evs with ht
  have hinv : t.isOpen = false → t.isConnected = false := by
    rw [ht]
    exact workflowSseRun_closed_inv evs workflowSseInit (by intro h; rfl)
  by_cases ho : t.isOpen = false
  · have hstep : workflowSseStep t SseEvent.errorEv = t := by
      rw [workflowSseStep, if_pos ho]
    rw [hsplit, hstep, workflowSseRun_closed_fixed evs2 t ho]
    exact ⟨hinv ho, ho⟩
  · have hstep : workflowSseStep t SseEvent.errorEv =
        { t with isConnected := false, isOpen := false } := by
      rw [workflowSseStep, if_neg ho]
    rw [hsplit, hstep, workflowSseRun_closed_fixed evs2 _ (by rfl)]
    exact ⟨rfl, rfl⟩

/-- **C6 counterexample.** The claim quantifies over *every* log stream
consumer, but `LogPanel`'s `onerror` handler only writes to the console: on
a stream-error signal delivered to a freshly opened `LogPanel`, the
underlying connection is *not* torn down (and the browser-level `EventSource`
auto-reconnect is therefore not prevented). -/
theorem logPanel_error_leaves_connection_open :
    (panelSseStep panelSseInit SseEvent.errorEv).isOpen = true ∧
    panelSseStep panelSseInit SseEvent.errorEv = panelSseInit := by
  exact ⟨rfl, rfl⟩

/-! ## Backend gateway (C7, C8)

`src/shopify/app/services/shopify-push.server.ts`:

    const backendUrl = process.env.PYTHON_BACKEND_URL;
    const shopUrl = process.env.SHOPIFY_STORE_URL || process.env.SHOPIFY_SHOP_URL;
    const accessToken = process.env.SHOPIFY_ACCESS_TOKEN;
    if (!backendUrl) throw new Error("PYTHON_BACKEND_URL is not set");
    if (!shopUrl) throw new Error("SHOPIFY_STORE_URL (or SHOPIFY_SHOP_URL) is not set in .env");
    if (!accessToken) throw new Error("SHOPIFY_ACCESS_TOKEN is not set in .env");
    ...fetch(`${backendUrl}/push-to-shopify`, ...)

and both services handle a non-2xx response as

    const errorData = await response.json().catch(() => ({ detail: response.statusText }));
    throw new Error(errorData.detail || `Upload failed: ${response.statusText}`);

(`Push failed:` in the push service).  An environment variable is an
`Option String`; `undefined` and the empty string are the falsy cases of
`!x` and `x || y`. -/

/-- JavaScript truthiness of an environment variable (`undefined` and `""`
are falsy). -/
def truthy : Option String → Bool
  | none => false
  | some s => s != ""

/-- JavaScript `a || b` over environment variables. -/
def jsOrOpt (a b : Option String) : Option String := if truthy a then a else b

/-- The environment the push service reads. -/
structure PushEnv where
  pythonBackendUrl : Option String
  shopifyStoreUrl : Option String
  shopifyShopUrl : Option String
  shopifyAccessToken : Option String

/-- `"PYTHON_BACKEND_URL is not set"`. -/
def backendUrlMissingMsg : String := "PYTHON_BACKEND_URL is not set"

/-- `"SHOPIFY_STORE_URL (or SHOPIFY_SHOP_URL) is not set in .env"`. -/
def shopUrlMissingMsg : String := "SHOPIFY_STORE_URL (or SHOPIFY_SHOP_URL) is not set in .env"

/-- `"SHOPIFY_ACCESS_TOKEN is not set in .env"`. -/
def accessTokenMissingMsg : String := "SHOPIFY_ACCESS_TOKEN is not set in .env"

/-- The network call `pushToShopify` would issue once configuration checks
pass. -/
structure PushRequest where
  url : String
  shopUrl : String
  accessToken : String

/-- The configuration stage of `pushToShopify`: either the `ConfigError` it
throws, or the request it goes on to `fetch`.  `.error` means no network
call is attempted. -/
def pushToShopifyRequest (env : PushEnv) : Except String PushRequest :=
  let backendUrl := env.pythonBackendUrl
  let shopUrl := jsOrOpt env.shopifyStoreUrl env.shopifyShopUrl
  let accessToken := env.shopifyAccessToken
  if truthy backendUrl = false then Except.error backendUrlMissingMsg
  else if truthy shopUrl = false then Except.error shopUrlMissingMsg
  else if truthy accessToken = false then Except.error accessTokenMissingMsg
  else Except.ok { url := backendUrl.getD "" ++ "/push-to-shopify",
                   shopUrl := shopUrl.getD "", accessToken := accessToken.getD "" }

/-- **C7.** With the shop URL unset (under both accepted variable names) and
the backend URL present, `pushToShopify` rejects with exactly the message
naming the missing shop URL variables, and produces no network request; the
three configuration error messages are distinctly worded, and whenever any
of the three credentials is unset the function rejects. -/
theorem pushToShopify_config_errors (env : PushEnv)
    (hb : truthy env.pythonBackendUrl = true)
    (hs : truthy (jsOrOpt env.shopifyStoreUrl env.shopifyShopUrl) = false) :
    pushToShopifyRequest env = Except.error shopUrlMissingMsg ∧
    (∀ r, pushToShopifyRequest env ≠ Except.ok r) ∧
    includesSub shopUrlMissingMsg "SHOPIFY_STORE_URL" = true ∧
    includesSub shopUrlMissingMsg "SHOPIFY_SHOP_URL" = true ∧
    backendUrlMissingMsg ≠ shopUrlMissingMsg ∧
    backendUrlMissingMsg ≠ accessTokenMissingMsg ∧
    shopUrlMissingMsg ≠ accessTokenMissingMsg ∧
    (∀ env2 : PushEnv,
      truthy env2.pythonBackendUrl = false ∨
      truthy (jsOrOpt env2.shopifyStoreUrl env2.shopifyShopUrl) = false ∨
      truthy env2.shopifyAccessToken = false →
      ∃ m, pushToShopifyRequest env2 = Except.error m) := by
  have hmain : pushToShopifyRequest env = Except.error shopUrlMissingMsg := by
    unfold pushToShopifyRequest
    rw [if_neg (by simp [hb]), if_pos (by simp [hs])]
  refine ⟨hmain, ?_, by decide, by decide, by decide, by decide, by decide, ?_⟩
  · intro r hok
    rw [hmain] at hok
    exact Except.noConfusion hok
  · intro env2 h
    unfold pushToShopifyRequest
    by_cases h1 : truthy env2.pythonBackendUrl = false
    · exact ⟨backendUrlMissingMsg, by rw [if_pos h1]⟩
    · rw [if_neg h1]
      by_cases h2 : truthy (jsOrOpt env2.shopifyStoreUrl env2.shopifyShopUrl) = false
      · exact ⟨shopUrlMissingMsg, by rw [if_pos h2]⟩
      · rw [if_neg h2]
        have h3 : truthy env2.shopifyAccessToken = false := by
          rcases h with h | h | h
          · exact absurd h h1
          · exact absurd h h2
          · exact h
        exact ⟨accessTokenMissingMsg, by rw [if_pos h3]⟩

/-- Witness for C7: backend URL and token configured, both shop URL
variables absent. -/
theorem pushToShopify_config_errors_witness :
    (truthy (PushEnv.mk (some "http://backend") none none (some "token")).pythonBackendUrl = true ∧
      truthy (jsOrOpt (PushEnv.mk (some "http://backend") none none (some "token")).shopifyStoreUrl
        (PushEnv.mk (some "http://backend") none none (some "token")).shopifyShopUrl) = false) ∧
    pushToShopifyRequest (PushEnv.mk (some "http://backend") none none (some "token")) =
      Except.error shopUrlMissingMsg :=
  ⟨⟨by rfl, by rfl⟩,
    (pushToShopify_config_errors (PushEnv.mk (some "http://backend") none none (some "token"))
      (by rfl) (by rfl)).1⟩

/-- An HTTP response as the services observe it: `response.ok`,
`response.statusText`, and the raw body text `response.json()` parses. -/
structure HttpResponse where
  ok : Bool
  statusText : String
  body : String

/-- `await response.json().catch(() => ({ detail: response.statusText }))`. -/
def errorData (resp : HttpResponse) : JsValue :=
  match jsonParse resp.body with
  | some v => v
  | none => JsValue.jobj [("detail", JsValue.jstr resp.statusText)]

/-- The exception a service throws on `!response.ok`.  The member access
`errorData.detail` happens first: when the body parsed to JSON `null` it
throws a `TypeError` — uncaught by the handler (the service's `catch`
rethrows), so that `TypeError`, not an `Error` built from the status text,
is what the caller observes.  Otherwise the thrown value is
`Error(errorData.detail || `${tag}${response.statusText}`)`. -/
def non2xxThrow (tag : String) (resp : HttpResponse) : JsException :=
  match jsMemberAccess (errorData resp) "detail" with
  | Except.error e => e
  | Except.ok (some d) =>
    if jsTruthy d then JsException.error (jsToString d)
    else JsException.error (tag ++ resp.statusText)
  | Except.ok none => JsException.error (tag ++ resp.statusText)

/-- Stand-in for the message of the `SyntaxError` thrown by
`response.json()` on a malformed *success* body (its exact text is
engine-defined). -/
def jsonSyntaxErrorMessage : String := "Unexpected token in JSON"

/-- `uploadCSV`'s handling of the response to `POST {backendUrl}/upload`. -/
def uploadCSVResponse (resp : HttpResponse) : Except JsException JsValue :=
  if resp.ok = false then Except.error (non2xxThrow "Upload failed: " resp)
  else
    match jsonParse resp.body with
    | some v => Except.ok v
    | none => Except.error (JsException.syntaxError jsonSyntaxErrorMessage)

/-- `pushToShopify`'s handling of the response to
`POST {backendUrl}/push-to-shopify`. -/
def pushToShopifyResponse (resp : HttpResponse) : Except JsException JsValue :=
  if resp.ok = false then Except.error (non2xxThrow "Push failed: " resp)
  else
    match jsonParse resp.body with
    | some v => Except.ok v
    | none => Except.error (JsException.syntaxError jsonSyntaxErrorMessage)

/-- **C8 counterexample.** `null` is valid JSON, so on a non-2xx response
with body `null` the claim's "otherwise" branch demands a rejection message
built from the HTTP status text — but `response.json()` resolves to `null`
(the `.catch` is not triggered) and `errorData.detail` itself throws a
`TypeError`, which the services rethrow: the rejection is a `TypeError`
whose engine-defined message contains no status text at all. -/
theorem non2xx_null_body_counterexample :
    jsonParse (HttpResponse.mk false "Bad Request" "null").body = some JsValue.jnull ∧
    uploadCSVResponse (HttpResponse.mk false "Bad Request" "null") =
      Except.error (JsException.typeError (nullAccessMessage "detail")) ∧
    pushToShopifyResponse (HttpResponse.mk false "Bad Request" "null") =
      Except.error (JsException.typeError (nullAccessMessage "detail")) ∧
    includesSub (nullAccessMessage "detail") "Bad Request" = false := by
  refine ⟨by rfl, by rfl, by rfl, by rfl⟩

/-- **C8 amended.** On every non-2xx response, both `uploadCSV` and
`pushToShopify` reject — never resolve.  The rejection carries the body's
non-empty `detail` string when the JSON body supplies one; a message built
from the HTTP status text when the body fails to parse (the bare status
text if non-empty, else the tagged fallback), when the parsed body has no
`detail` (`undefined`), or when `detail` is present but falsy; and, the one
exception, the `TypeError` of the `null` member access when the body parses
to JSON `null`. -/
theorem non2xx_exception_spec (resp : HttpResponse) (hok : resp.ok = false) :
    (∀ v d, jsonParse resp.body = some v →
      jsMemberAccess v "detail" = Except.ok (some (JsValue.jstr d)) → d ≠ "" →
      uploadCSVResponse resp = Except.error (JsException.error d) ∧
      pushToShopifyResponse resp = Except.error (JsException.error d)) ∧
    (jsonParse resp.body = none →
      uploadCSVResponse resp = Except.error (JsException.error
        (if resp.statusText != "" then resp.statusText
         else "Upload failed: " ++ resp.statusText)) ∧
      pushToShopifyResponse resp = Except.error (JsException.error
        (if resp.statusText != "" then resp.statusText
         else "Push failed: " ++ resp.statusText))) ∧
    (∀ v, jsonParse resp.body = some v → jsMemberAccess v "detail" = Except.ok none →
      uploadCSVResponse resp =
        Except.error (JsException.error ("Upload failed: " ++ resp.statusText)) ∧
      pushToShopifyResponse resp =
        Except.error (JsException.error ("Push failed: " ++ resp.statusText))) ∧
    (∀ v d, jsonParse resp.body = some v →
      jsMemberAccess v "detail" = Except.ok (some d) → jsTruthy d = false →
      uploadCSVResponse resp =
        Except.error (JsException.error ("Upload failed: " ++ resp.statusText)) ∧
      pushToShopifyResponse resp =
        Except.error (JsException.error ("Push failed: " ++ resp.statusText))) ∧
    (jsonParse resp.body = some JsValue.jnull →
      uploadCSVResponse resp =
        Except.error (JsException.typeError (nullAccessMessage "detail")) ∧
      pushToShopifyResponse resp =
        Except.error (JsException.typeError (nullAccessMessage "detail"))) ∧
    (∃ e, uploadCSVResponse resp = Except.error e) ∧
    (∃ e, pushToShopifyResponse resp = Except.error e) := by
  have hu : uploadCSVResponse resp = Except.error (non2xxThrow "Upload failed: " resp) := by
    unfold uploadCSVResponse
    rw [if_pos hok]
  have hp : pushToShopifyResponse resp = Except.error (non2xxThrow "Push failed: " resp) := by
    unfold pushToShopifyResponse
    rw [if_pos hok]
  refine ⟨?_, ?_, ?_, ?_, ?_, ⟨_, hu⟩, ⟨_, hp⟩⟩
  · intro v d hparse hacc hne
    have hed : errorData resp = v := by
      unfold errorData
      rw [hparse]
    have hmsg : ∀ tag, non2xxThrow tag resp = JsException.error d := by
      intro tag
      unfold non2xxThrow
      rw [hed, hacc]
      simp [jsTruthy, hne, jsToString]
    rw [hu, hp, hmsg, hmsg]
    exact ⟨rfl, rfl⟩
  · intro hparse
    have hed : errorData resp = JsValue.jobj [("detail", JsValue.jstr resp.statusText)] := by
      unfold errorData
      rw [hparse]
    have hmsg : ∀ tag, non2xxThrow tag resp = JsException.error
        (if resp.statusText != "" then resp.statusText else tag ++ resp.statusText) := by
      intro tag
      unfold non2xxThrow
      rw [hed]
      simp only [jsMemberAccess, lookupField]
      by_cases hst : resp.statusText = ""
      · simp [jsTruthy, hst, jsToString]
      · simp [jsTruthy, hst, jsToString]
    rw [hu, hp, hmsg, hmsg]
    exact ⟨rfl, rfl⟩
  · intro v hparse hacc
    have hed : errorData resp = v := by
      unfold errorData
      rw [hparse]
    have hmsg : ∀ tag, non2xxThrow tag resp = JsException.error (tag ++ resp.statusText) := by
      intro tag
      unfold non2xxThrow
      rw [hed, hacc]
    rw [hu, hp, hmsg, hmsg]
    exact ⟨rfl, rfl⟩
  · intro v d hparse hacc hfalsy
    have hed : errorData resp = v := by
      unfold errorData
      rw [hparse]
    have hmsg : ∀ tag, non2xxThrow tag resp = JsException.error (tag ++ resp.statusText) := by
      intro tag
      unfold non2xxThrow
      rw [hed, hacc]
      simp [hfalsy]
    rw [hu, hp, hmsg, hmsg]
    exact ⟨rfl, rfl⟩
  · intro hparse
    have hed : errorData resp = JsValue.jnull := by
      unfold errorData
      rw [hparse]
    have hmsg : ∀ tag, non2xxThrow tag resp =
        JsException.typeError (nullAccessMessage "detail") := by
      intro tag
      unfold non2xxThrow
      rw [hed]
      rfl
    rw [hu, hp, hmsg, hmsg]
    exact ⟨rfl, rfl⟩

/-- Witness for C8 (amended): a 400 response carrying
`{"detail": "CSV missing header", "n": 1.5}` — a body with a fractional
numeral, which `JSON.parse` accepts — makes both services reject with
exactly that detail. -/
theorem non2xx_exception_spec_witness :
    ((HttpResponse.mk false "Bad Request"
        "\x7b\"detail\": \"CSV missing header\", \"n\": 1.5\x7d").ok = false ∧
      jsonParse (HttpResponse.mk false "Bad Request"
        "\x7b\"detail\": \"CSV missing header\", \"n\": 1.5\x7d").body =
        some (JsValue.jobj [("detail", JsValue.jstr "CSV missing header"),
          ("n", JsValue.jnumFrac "1.5")]) ∧
      jsMemberAccess (JsValue.jobj [("detail", JsValue.jstr "CSV missing header"),
          ("n", JsValue.jnumFrac "1.5")]) "detail" =
        Except.ok (some (JsValue.jstr "CSV missing header")) ∧
      "CSV missing header" ≠ "") ∧
    uploadCSVResponse (HttpResponse.mk false "Bad Request"
        "\x7b\"detail\": \"CSV missing header\", \"n\": 1.5\x7d") =
      Except.error (JsException.error "CSV missing header") ∧
    pushToShopifyResponse (HttpResponse.mk false "Bad Request"
        "\x7b\"detail\": \"CSV missing header\", \"n\": 1.5\x7d") =
      Except.error (JsException.error "CSV missing header") :=
  ⟨⟨rfl, by rfl, by rfl, by decide⟩,
    (non2xx_exception_spec (HttpResponse.mk false "Bad Request"
        "\x7b\"detail\": \"CSV missing header\", \"n\": 1.5\x7d")
      rfl).1 (JsValue.jobj [("detail", JsValue.jstr "CSV missing header"),
        ("n", JsValue.jnumFrac "1.5")])
      "CSV missing header" (by rfl) (by rfl) (by decide)⟩

/-! ## n8n webhook proxy (C9)

`POST` handler of the trigger-n8n proxy route
(src/admin-dashboard/app/upload/page.tsx):

    const contentType = request.headers.get('content-type') || '';
    const n8nUrl = process.env.NEXT_PUBLIC_N8N_WEBHOOK_URL;
    if (!n8nUrl) return NextResponse.json({ error: 'N8n webhook URL not configured.' }, { status: 500 });
    let payload; let headers = {};
    if (contentType.includes('multipart/form-data')) {
      payload = await request.formData();          // headers stays empty
    } else {
      payload = JSON.stringify(await request.json());
      headers['Content-Type'] = 'application/json';
    }
    const response = await fetch(n8nUrl, { method: 'POST', headers, body: payload });
-/

/-- The environment the proxy reads. -/
structure ProxyEnv where
  n8nWebhookUrl : Option String

/-- An incoming request to the proxy: its content type (`''` when the header
is absent), the parsed form fields when it is multipart, and the raw body
text when it is not. -/
structure ProxyRequest where
  contentType : String
  formBody : List (String × String)
  rawBody : String

/-- The body the proxy forwards. -/
inductive ForwardBody : Type where
  | formData : List (String × String) → ForwardBody
  | text : String → ForwardBody

/-- The outbound `fetch` the proxy issues. -/
structure ForwardRequest where
  url : String
  headers : List (String × String)
  body : ForwardBody

/-- What the proxy handler does with one request: forward, or answer with an
error response itself. -/
inductive ProxyOutcome : Type where
  | forward : ForwardRequest → ProxyOutcome
  | errorResponse : Nat → String → ProxyOutcome

/-- The trigger-n8n `POST` handler up to the outbound `fetch` (a thrown
`request.json()` parse error is caught by the outer `catch` and answered
with status 500). -/
def triggerN8nPost (env : ProxyEnv) (req : ProxyRequest) : ProxyOutcome :=
  if truthy env.n8nWebhookUrl = false then
    ProxyOutcome.errorResponse 500 "N8n webhook URL not configured."
  else if includesSub req.contentType "multipart/form-data" then
    ProxyOutcome.forward
      { url := env.n8nWebhookUrl.getD "", headers := [],
        body := ForwardBody.formData req.formBody }
  else
    match jsonParse req.rawBody with
    | some v =>
      ProxyOutcome.forward
        { url := env.n8nWebhookUrl.getD "",
          headers := [("Content-Type", "application/json")],
          body := ForwardBody.text (jsonSerialize v) }
    | none => ProxyOutcome.errorResponse 500 jsonSyntaxErrorMessage

/-- **C9.** With the webhook URL configured: a multipart request is
forwarded with its form body and an *empty* headers map (no manually set
`Content-Type`), and a JSON request (`application/json` content type, body
parsing as JSON) is forwarded re-serialized with exactly
`Content-Type: application/json`. -/
theorem proxy_content_type_spec (env : ProxyEnv) (req : ProxyRequest) (v : JsValue)
    (henv : truthy env.n8nWebhookUrl = true) :
    (includesSub req.contentType "multipart/form-data" = true →
      triggerN8nPost env req =
        ProxyOutcome.forward
          { url := env.n8nWebhookUrl.getD "", headers := [],
            body := ForwardBody.formData req.formBody }) ∧
    (req.contentType = "application/json" → jsonParse req.rawBody = some v →
      triggerN8nPost env req =
        ProxyOutcome.forward
          { url := env.n8nWebhookUrl.getD "",
            headers := [("Content-Type", "application/json")],
            body := ForwardBody.text (jsonSerialize v) }) := by
  have henv2 : ¬ truthy env.n8nWebhookUrl = false := by simp [henv]
  constructor
  · intro hmp
    unfold triggerN8nPost
    rw [if_neg henv2, if_pos hmp]
  · intro hct hparse
    have hmp : includesSub req.contentType "multipart/form-data" = false := by
      rw [hct]
      rfl
    unfold triggerN8nPost
    rw [if_neg henv2, if_neg (by simp [hmp]), hparse]

/-- Witness for C9: one multipart request and one JSON request against a
configured proxy. -/
theorem proxy_content_type_spec_witness :
    (truthy (ProxyEnv.mk (some "http://n8n/hook")).n8nWebhookUrl = true ∧
      includesSub "multipart/form-data; boundary=x" "multipart/form-data" = true ∧
      jsonParse "\x7b\"rows\": 2\x7d" = some (JsValue.jobj [("rows", JsValue.jnum 2)])) ∧
    triggerN8nPost (ProxyEnv.mk (some "http://n8n/hook"))
        (ProxyRequest.mk "multipart/form-data; boundary=x" [("file", "data.csv")] "") =
      ProxyOutcome.forward
        { url := "http://n8n/hook", headers := [],
          body := ForwardBody.formData [("file", "data.csv")] } ∧
    triggerN8nPost (ProxyEnv.mk (some "http://n8n/hook"))
        (ProxyRequest.mk "application/json" [] "\x7b\"rows\": 2\x7d") =
      ProxyOutcome.forward
        { url := "http://n8n/hook",
          headers := [("Content-Type", "application/json")],
          body := ForwardBody.text (jsonSerialize (JsValue.jobj [("rows", JsValue.jnum 2)])) } :=
  ⟨⟨by rfl, by rfl, by rfl⟩,
    (proxy_content_type_spec (ProxyEnv.mk (some "http://n8n/hook"))
      (ProxyRequest.mk "multipart/form-data; boundary=x" [("file", "data.csv")] "")
      JsValue.jnull (by rfl)).1 (by rfl),
    (proxy_content_type_spec (ProxyEnv.mk (some "http://n8n/hook"))
      (ProxyRequest.mk "application/json" [] "\x7b\"rows\": 2\x7d")
      (JsValue.jobj [("rows", JsValue.jnum 2)]) (by rfl)).2 rfl (by rfl)⟩

/-! ## Workflow route action (C10)

`action` in src/unnamed/part_001 (identical, minus a timestamp field, in
src/shopify/app/routes/app.test-python.tsx):

    try {
      const formData = await request.formData();
      const actionType = formData.get("actionType") as string;
      if (actionType === "upload") {
        const file = formData.get("file") as File;
        if (!file || file.size === 0) {
          return { action: "upload", status: "error", message: "Please select a valid CSV file" };
        }
        const result = await uploadCSV(file);
        return { action: "upload", status: "success", data: result };
      }
      if (actionType === "push") {
        const result = await pushToShopify();
        return { action: "push", status: "success", data: result };
      }
      return { status: "error", message: "Invalid action" };
    } catch (error) { return { status: "error", message: error.message }; }

The outcomes of the fallible collaborators (`request.formData()`,
`uploadCSV`, `pushToShopify`) are passed in as `Except` values; `.error`
models the rejection the `catch` would observe. -/

/-- The `file` entry of the submitted form. -/
structure UploadedFile where
  name : String
  size : Nat

/-- The parsed form data the action reads. -/
structure FormDataModel where
  actionType : Option String
  file : Option UploadedFile

/-- The plain value the action returns to the client. -/
structure ActionValue where
  action : Option String
  status : String
  message : Option String
  data : Option JsValue

/-- The `catch` branch's value: `{ status: "error", message }`. -/
def errorValue (m : String) : ActionValue :=
  { action := none, status := "error", message := some m, data := none }

/-- The missing/empty-file early return of the upload branch. -/
def invalidFileValue : ActionValue :=
  { action := some "upload", status := "error",
    message := some "Please select a valid CSV file", data := none }

/-- The `try` block: any `.error` escaping it is a rejection the `catch`
converts. -/
def routeActionBody (fd : FormDataModel)
    (uploadResult pushResult : Except String JsValue) : Except String ActionValue :=
  if fd.actionType = some "upload" then
    match fd.file with
    | none => Except.ok invalidFileValue
    | some f =>
      if f.size = 0 then Except.ok invalidFileValue
      else
        match uploadResult with
        | Except.ok r =>
          Except.ok { action := some "upload", status := "success",
                      message := none, data := some r }
        | Except.error m => Except.error m
  else if fd.actionType = some "push" then
    match pushResult with
    | Except.ok r =>
      Except.ok { action := some "push", status := "success",
                  message := none, data := some r }
    | Except.error m => Except.error m
  else Except.ok (errorValue "Invalid action")

/-- The whole route action: `try`/`catch` around form parsing and the
branches.  Total — it always returns a value, never throws. -/
def routeAction (formDataResult : Except String FormDataModel)
    (uploadResult pushResult : Except String JsValue) : ActionValue :=
  match formDataResult with
  | Except.error m => errorValue m
  | Except.ok fd =>
    match routeActionBody fd uploadResult pushResult with
    | Except.ok v => v
    | Except.error m => errorValue m

/-- **C10.** The route action never throws: it is a total function whose
status is always `"success"` or `"error"`; a rejection of form parsing, of
`uploadCSV` (reached with a non-empty file under `actionType = "upload"`),
or of `pushToShopify` (under `actionType = "push"`) is returned as
`{ status: "error", message }` carrying that rejection's message; and an
unrecognized `actionType` returns `{ status: "error", message: "Invalid
action" }`. -/
theorem routeAction_spec (fdr : Except String FormDataModel)
    (u p : Except String JsValue) :
    ((routeAction fdr u p).status = "success" ∨ (routeAction fdr u p).status = "error") ∧
    (∀ m, fdr = Except.error m → routeAction fdr u p = errorValue m) ∧
    (∀ fd f m, fdr = Except.ok fd → fd.actionType = some "upload" → fd.file = some f →
      f.size ≠ 0 → u = Except.error m → routeAction fdr u p = errorValue m) ∧
    (∀ fd m, fdr = Except.ok fd → fd.actionType = some "push" → p = Except.error m →
      routeAction fdr u p = errorValue m) ∧
    (∀ fd, fdr = Except.ok fd → fd.actionType ≠ some "upload" →
      fd.actionType ≠ some "push" → routeAction fdr u p = errorValue "Invalid action") := by
  refine ⟨?_, ?_, ?_, ?_, ?_⟩
  · cases fdr with
    | error m => right; rfl
    | ok fd =>
      by_cases h1 : fd.actionType = some "upload"
      · cases hf : fd.file with
        | none => simp [routeAction, routeActionBody, h1, hf, errorValue, invalidFileValue]
        | some f =>
          by_cases hz : f.size = 0
          · simp [routeAction, routeActionBody, h1, hf, hz, invalidFileValue]
          · cases u with
            | ok r => simp [routeAction, routeActionBody, h1, hf, hz]
            | error m => simp [routeAction, routeActionBody, h1, hf, hz, errorValue]
      · by_cases h2 : fd.actionType = some "push"
        · cases p with
          | ok r => simp [routeAction, routeActionBody, h1, h2]
          | error m => simp [routeAction, routeActionBody, h1, h2, errorValue]
        · simp [routeAction, routeActionBody, h1, h2, errorValue]
  · intro m hm
    rw [hm]
    rfl
  · intro fd f m hfd h1 hf hz hu
    subst hfd
    subst hu
    simp [routeAction, routeActionBody, h1, hf, hz]
  · intro fd m hfd h2 hp
    subst hfd
    subst hp
    have h1 : fd.actionType ≠ some "upload" := by
      rw [h2]
      decide
    simp [routeAction, routeActionBody, h1, h2]
  · intro fd hfd h1 h2
    subst hfd
    simp [routeAction, routeActionBody, h1, h2]

/-- Witness for C10: `pushToShopify` rejecting with "boom" under
`actionType = "push"` is returned as `{ status: "error", message: "boom" }`. -/
theorem routeAction_spec_witness :
    ((Except.ok (FormDataModel.mk (some "push") none) :
        Except String FormDataModel) = Except.ok (FormDataModel.mk (some "push") none) ∧
      (FormDataModel.mk (some "push") none).actionType = some "push") ∧
    routeAction (Except.ok (FormDataModel.mk (some "push") none))
      (Except.ok JsValue.jnull) (Except.error "boom") = errorValue "boom" :=
  ⟨⟨rfl, rfl⟩,
    (routeAction_spec (Except.ok (FormDataModel.mk (some "push") none))
      (Except.ok JsValue.jnull) (Except.error "boom")).2.2.2.1
      (FormDataModel.mk (some "push") none) "boom" rfl rfl rfl⟩

end GenContent
